import Mathlib

/-!
Verification of the token-lifecycle manager of the Interview-Agent
repository (`oauth_manager.py`, with the force-refresh route of
`send_email.py`).

The embedding models the `OAuthManager` class as explicit state passing
over `SysState` (the in-memory `self.credentials` field and the token
file on disk).  External collaborators — the provider SDK network calls
(`Credentials.refresh`, the interactive `InstalledAppFlow`, the revoke
endpoint POST) — are modelled as outcomes supplied by an environment
record, since their results are decided outside the repository.  Each
manager operation additionally returns the list of observable events it
performed (store reads/writes, network calls), so that ordering claims
("refresh before fallback") can be stated over the trace.

Validity and expiry of a credential follow the invariant stated by the
specification for the SDK `Credentials.valid` / `Credentials.expired`
properties: a credential is valid iff it has a non-empty access token
and (no expiry is recorded or the current time is before expiry); it is
expired iff an expiry is recorded and the current time is at or past it.
Serialization of a credential to the token file is the SDK pair
`to_json` / `from_authorized_user_info`; per the specification the file
is treated as an opaque structured record holding exactly the credential
fields, so the file content is modelled as the credential itself.
-/

/-- A credential record: access token, optional refresh token, optional
absolute expiry timestamp, and granted scopes.  Mirrors the fields of
`google.oauth2.credentials.Credentials` used by the repository. -/
structure Credential where
  token : String
  refresh_token : Option String
  expiry : Option Int
  scopes : List String
deriving DecidableEq, Repr

/-- SDK `Credentials.expired`: false when no expiry is recorded,
otherwise true iff the current time has reached the expiry. -/
def Credential.expired (c : Credential) (now : Int) : Bool :=
  match c.expiry with
  | none => false
  | some e => decide (e ≤ now)

/-- SDK `Credentials.valid`, per the specification invariant: non-empty
access token and not expired. -/
def Credential.valid (c : Credential) (now : Int) : Bool :=
  c.token != "" && !(c.expired now)

/-- Python truthiness of `self.credentials.refresh_token`: a present,
non-empty refresh token. -/
def Credential.hasRefreshToken (c : Credential) : Bool :=
  match c.refresh_token with
  | some s => s != ""
  | none => false

/-- The token file on disk: absent, present but unparseable (raises
`ValueError`/`KeyError` on `json.loads` / `from_authorized_user_info`),
or holding a stored credential record. -/
inductive TokenFile where
  | absent
  | malformed
  | stored (c : Credential)
deriving DecidableEq, Repr

/-- The mutable state of an `OAuthManager` instance together with the
token file it owns: `credentials` is the `self.credentials` field. -/
structure SysState where
  credentials : Option Credential
  tokenFile : TokenFile
deriving DecidableEq, Repr

/-- Outcome of the network call `self.credentials.refresh(Request())`
inside `_refresh_token`: success leaves a new credential in place, or
the SDK raises `RefreshError`. -/
inductive RefreshOutcome where
  | ok (c : Credential)
  | refreshError (msg : String)
deriving DecidableEq, Repr

/-- Outcome of the interactive flow in `_run_oauth_flow`: success
produces a fresh credential, failure is any exception message. -/
inductive FlowOutcome where
  | ok (c : Credential)
  | err (msg : String)
deriving DecidableEq, Repr

/-- Environment of one `get_credentials` call: the current time and the
outcomes the external SDK would deliver if invoked. -/
structure Env where
  now : Int
  refreshOutcome : RefreshOutcome
  flowOutcome : FlowOutcome
deriving Repr

/-- Observable events of a manager operation, in execution order. -/
inductive Event where
  | readStore
  | refreshCall
  | flowRun
  | saveStore (c : Credential)
  | revokePost (token : String)
  | deleteStore
deriving DecidableEq, Repr

/-- Result of `get_credentials`: a returned credential, or the
`HTTPException(status_code, detail)` raised by `_run_oauth_flow`. -/
inductive AuthResult where
  | ok (c : Credential)
  | httpError (status : Nat) (detail : String)
deriving DecidableEq, Repr

/-- The detail string of the `HTTPException` raised in
`_run_oauth_flow`, carrying the underlying exception message. -/
def authFailDetail (msg : String) : String :=
  "Authentication failed: " ++ msg ++
    ". Please ensure your redirect URIs are properly configured in Google Cloud Console."

/-- Embedding of `OAuthManager._save_credentials`: writes the in-memory credential to
the token file only when it is present and valid. -/
def save_credentials (now : Int) (st : SysState) : SysState × List Event :=
  match st.credentials with
  | some c =>
    if c.valid now then ({ st with tokenFile := .stored c }, [.saveStore c])
    else (st, [])
  | none => (st, [])

/-- Embedding of `OAuthManager._run_oauth_flow`: on success stores the fresh
credential in memory, saves it, and returns it; on failure raises an
`HTTPException` with status 500 and a detail carrying the cause. -/
def run_oauth_flow (env : Env) (st : SysState) : AuthResult × SysState × List Event :=
  match env.flowOutcome with
  | .ok c =>
    let sv := save_credentials env.now { st with credentials := some c }
    (.ok c, sv.1, .flowRun :: sv.2)
  | .err msg =>
    (.httpError 500 (authFailDetail msg), st, [.flowRun])

/-- Embedding of `OAuthManager._refresh_token`: attempts the SDK refresh; on success
saves and returns the updated credential; on `RefreshError` falls back
to the full interactive flow. -/
def refresh_token (env : Env) (st : SysState) : AuthResult × SysState × List Event :=
  match env.refreshOutcome with
  | .ok c =>
    let sv := save_credentials env.now { st with credentials := some c }
    (.ok c, sv.1, .refreshCall :: sv.2)
  | .refreshError _ =>
    let r := run_oauth_flow env st
    (r.1, r.2.1, .refreshCall :: r.2.2)

/-- The load step at the top of `get_credentials`: when the token file
exists, re-read it and overwrite `self.credentials` with its contents;
a parse failure (`ValueError`/`KeyError`) sets `self.credentials` to
`None`. -/
def loadStep (st : SysState) : SysState × List Event :=
  match st.tokenFile with
  | .absent => (st, [])
  | .malformed => ({ st with credentials := none }, [.readStore])
  | .stored c => ({ st with credentials := some c }, [.readStore])

/-- Embedding of `OAuthManager.get_credentials`: load from the store, then return the
in-memory credential if valid; otherwise refresh when expired with a
refresh token present, else run the interactive flow. -/
def get_credentials (env : Env) (st : SysState) : AuthResult × SysState × List Event :=
  let ld := loadStep st
  match ld.1.credentials with
  | none =>
    let r := run_oauth_flow env ld.1
    (r.1, r.2.1, ld.2 ++ r.2.2)
  | some c =>
    if c.valid env.now then (.ok c, ld.1, ld.2)
    else if c.expired env.now && c.hasRefreshToken then
      let r := refresh_token env ld.1
      (r.1, r.2.1, ld.2 ++ r.2.2)
    else
      let r := run_oauth_flow env ld.1
      (r.1, r.2.1, ld.2 ++ r.2.2)

/-- Embedding of `OAuthManager._is_token_expired_or_expiring_soon` with the fixed
`token_expiry_buffer = 300`; present in the source but never consulted
by `get_credentials`. -/
def is_token_expired_or_expiring_soon (now : Int) (st : SysState) : Bool :=
  match st.credentials with
  | none => true
  | some c =>
    match c.expiry with
    | none => true
    | some e => decide (now + 300 ≥ e)

/-- Outcome of the `self.credentials.refresh(request)` call made inside
`revoke_token` before contacting the revoke endpoint. -/
inductive RevokeRefreshOutcome where
  | ok (c : Credential)
  | raised (msg : String)
deriving DecidableEq, Repr

/-- Outcome of `request.post` against the revoke endpoint: an HTTP
status code, or an exception. -/
inductive PostOutcome where
  | status (code : Nat)
  | raised (msg : String)
deriving DecidableEq, Repr

/-- Environment of one `revoke_token` call. -/
structure RevokeEnv where
  now : Int
  refreshOutcome : RevokeRefreshOutcome
  postOutcome : PostOutcome
deriving Repr

/-- Embedding of `OAuthManager.revoke_token`: when a valid credential is held, first
refreshes it, then POSTs the (refreshed) access token to the revoke
endpoint; on status 200 removes the token file if present and returns
true; every other path returns false, with all exceptions inside the
body caught.  The in-memory `self.credentials` field is never reset. -/
def revoke_token (env : RevokeEnv) (st : SysState) : Bool × SysState × List Event :=
  match st.credentials with
  | some c =>
    if c.valid env.now then
      match env.refreshOutcome with
      | .ok c' =>
        let st1 := { st with credentials := some c' }
        match env.postOutcome with
        | .status code =>
          if code == 200 then
            match st1.tokenFile with
            | .absent => (true, st1, [.refreshCall, .revokePost c'.token])
            | _ => (true, { st1 with tokenFile := .absent },
                    [.refreshCall, .revokePost c'.token, .deleteStore])
          else (false, st1, [.refreshCall, .revokePost c'.token])
        | .raised _ => (false, st1, [.refreshCall, .revokePost c'.token])
      | .raised _ => (false, st, [.refreshCall])
    else (false, st, [])
  | none => (false, st, [])

/-- The credential-handling core of the `POST /auth/refresh` route
(`force_refresh` in `send_email.py`): when an in-memory credential is
held, force its expiry to the current time, then call
`get_credentials`. -/
def force_refresh (env : Env) (st : SysState) : AuthResult × SysState × List Event :=
  let st1 :=
    match st.credentials with
    | some c => { st with credentials := some { c with expiry := some env.now } }
    | none => st
  get_credentials env st1

/-- Whether the manager currently holds a valid in-memory credential:
the guard `self.credentials and self.credentials.valid`. -/
def heldValid (st : SysState) (now : Int) : Bool :=
  match st.credentials with
  | some c => c.valid now
  | none => false

/-! Helper lemmas. -/

theorem Credential.valid_false_of_expired (c : Credential) (now : Int)
    (h : c.expired now = true) : c.valid now = false := by
  simp [Credential.valid, h]

theorem save_credentials_credentials (now : Int) (st : SysState) :
    (save_credentials now st).1.credentials = st.credentials := by
  unfold save_credentials
  cases hc : st.credentials with
  | none => simp [hc]
  | some c => dsimp only; split <;> simp [hc]

theorem refreshCall_not_mem_save (now : Int) (st : SysState) :
    Event.refreshCall ∉ (save_credentials now st).2 := by
  unfold save_credentials
  cases st.credentials with
  | none => simp
  | some c => dsimp only; split <;> simp

theorem flowRun_not_mem_save (now : Int) (st : SysState) :
    Event.flowRun ∉ (save_credentials now st).2 := by
  unfold save_credentials
  cases st.credentials with
  | none => simp
  | some c => dsimp only; split <;> simp

theorem refreshCall_not_mem_flow (env : Env) (st : SysState) :
    Event.refreshCall ∉ (run_oauth_flow env st).2.2 := by
  unfold run_oauth_flow
  cases h : env.flowOutcome <;> simp [refreshCall_not_mem_save]

theorem flowRun_mem_flow (env : Env) (st : SysState) :
    Event.flowRun ∈ (run_oauth_flow env st).2.2 := by
  unfold run_oauth_flow
  cases h : env.flowOutcome <;> simp

theorem run_oauth_flow_fst_const (env : Env) (st st' : SysState) :
    (run_oauth_flow env st).1 = (run_oauth_flow env st').1 := by
  unfold run_oauth_flow
  cases h : env.flowOutcome <;> rfl

theorem run_oauth_flow_credentials_eq (env : Env) (st st' : SysState)
    (h : st.credentials = st'.credentials) :
    (run_oauth_flow env st).2.1.credentials = (run_oauth_flow env st').2.1.credentials := by
  unfold run_oauth_flow
  cases hf : env.flowOutcome with
  | ok c => simp [save_credentials_credentials]
  | err m => simpa using h

/-! Claim theorems. -/

/-- Claim C6: a credential with a non-empty access token and no recorded
expiry is valid at every time, and `get_credentials` returns it from the
store directly: the trace is the single store read, with no refresh call
and no interactive flow. -/
theorem C6_no_expiry_always_valid (env : Env) (st : SysState) (c : Credential)
    (htok : c.token ≠ "") (hexp : c.expiry = none)
    (hfile : st.tokenFile = .stored c) :
    (∀ t : Int, c.valid t = true) ∧
    (get_credentials env st).1 = .ok c ∧
    (get_credentials env st).2.2 = [Event.readStore] := by
  have hv : ∀ t : Int, c.valid t = true := by
    intro t
    simp [Credential.valid, Credential.expired, hexp, htok]
  refine ⟨hv, ?_, ?_⟩ <;>
    simp [get_credentials, loadStep, hfile, hv env.now]

/-- Witness for C6 at a concrete credential and state. -/
theorem C6_no_expiry_always_valid_witness :
    (∀ t : Int,
        (Credential.mk "tok" (some "rt") none ["s"]).valid t = true) ∧
    (get_credentials ⟨0, .refreshError "e", .err "e"⟩
        ⟨none, .stored (Credential.mk "tok" (some "rt") none ["s"])⟩).1 =
      .ok (Credential.mk "tok" (some "rt") none ["s"]) ∧
    (get_credentials ⟨0, .refreshError "e", .err "e"⟩
        ⟨none, .stored (Credential.mk "tok" (some "rt") none ["s"])⟩).2.2 =
      [Event.readStore] :=
  C6_no_expiry_always_valid ⟨0, .refreshError "e", .err "e"⟩
    ⟨none, .stored (Credential.mk "tok" (some "rt") none ["s"])⟩
    (Credential.mk "tok" (some "rt") none ["s"])
    (by decide) rfl rfl

/-- Claim C8: when no valid credential is held, `revoke_token` returns
false, leaves the state (in-memory credential and token file) untouched,
and performs no observable action. -/
theorem C8_revoke_no_valid_is_noop (env : RevokeEnv) (st : SysState)
    (h : heldValid st env.now = false) :
    revoke_token env st = (false, st, []) := by
  cases hc : st.credentials with
  | none => simp [revoke_token, hc]
  | some c =>
    have hv : c.valid env.now = false := by simpa [heldValid, hc] using h
    simp [revoke_token, hc, hv]

/-- Witness for C8 with an empty manager state. -/
theorem C8_revoke_no_valid_is_noop_witness :
    revoke_token ⟨0, .raised "e", .status 200⟩ ⟨none, .absent⟩ =
      (false, ⟨none, .absent⟩, []) :=
  C8_revoke_no_valid_is_noop ⟨0, .raised "e", .status 200⟩ ⟨none, .absent⟩ rfl

/-- Claim C5: a malformed token file is treated as absence of a
credential: `get_credentials` produces the same caller-visible result
and the same in-memory credential as on a fresh empty state, runs the
interactive flow, and never reports a parse error or attempts a
refresh. -/
theorem C5_malformed_treated_as_absent (env : Env) (st : SysState)
    (h : st.tokenFile = .malformed) :
    (get_credentials env st).1 = (get_credentials env ⟨none, .absent⟩).1 ∧
    (get_credentials env st).2.1.credentials =
      (get_credentials env ⟨none, .absent⟩).2.1.credentials ∧
    Event.flowRun ∈ (get_credentials env st).2.2 ∧
    Event.refreshCall ∉ (get_credentials env st).2.2 := by
  refine ⟨?_, ?_, ?_, ?_⟩
  · simp only [get_credentials, loadStep, h]
    exact run_oauth_flow_fst_const env _ _
  · simp only [get_credentials, loadStep, h]
    exact run_oauth_flow_credentials_eq env _ _ rfl
  · simp only [get_credentials, loadStep, h]
    exact List.mem_append_right _ (flowRun_mem_flow env _)
  · simp only [get_credentials, loadStep, h]
    intro hmem
    rcases List.mem_append.mp hmem with hmem | hmem
    · simp at hmem
    · exact refreshCall_not_mem_flow env _ hmem

/-- Witness for C5 on a concrete malformed store. -/
theorem C5_malformed_treated_as_absent_witness :
    (get_credentials ⟨0, .refreshError "e", .err "boom"⟩ ⟨none, .malformed⟩).1 =
      (get_credentials ⟨0, .refreshError "e", .err "boom"⟩ ⟨none, .absent⟩).1 ∧
    (get_credentials ⟨0, .refreshError "e", .err "boom"⟩ ⟨none, .malformed⟩).2.1.credentials =
      (get_credentials ⟨0, .refreshError "e", .err "boom"⟩ ⟨none, .absent⟩).2.1.credentials ∧
    Event.flowRun ∈
      (get_credentials ⟨0, .refreshError "e", .err "boom"⟩ ⟨none, .malformed⟩).2.2 ∧
    Event.refreshCall ∉
      (get_credentials ⟨0, .refreshError "e", .err "boom"⟩ ⟨none, .malformed⟩).2.2 :=
  C5_malformed_treated_as_absent ⟨0, .refreshError "e", .err "boom"⟩ ⟨none, .malformed⟩ rfl

/-! Branch characterizations of get_credentials, and result lemmas. -/

theorem loadStep_no_network (st : SysState) :
    Event.refreshCall ∉ (loadStep st).2 ∧ Event.flowRun ∉ (loadStep st).2 := by
  unfold loadStep
  cases st.tokenFile <;> simp

theorem refresh_token_events (env : Env) (st : SysState) :
    ∃ rest, (refresh_token env st).2.2 = Event.refreshCall :: rest := by
  unfold refresh_token
  cases env.refreshOutcome <;> exact ⟨_, rfl⟩

theorem get_credentials_of_valid (env : Env) (st : SysState) (c : Credential)
    (hc : (loadStep st).1.credentials = some c) (hv : c.valid env.now = true) :
    get_credentials env st = (.ok c, (loadStep st).1, (loadStep st).2) := by
  simp only [get_credentials, hc, hv, if_true]

theorem get_credentials_of_none (env : Env) (st : SysState)
    (hc : (loadStep st).1.credentials = none) :
    get_credentials env st =
      ((run_oauth_flow env (loadStep st).1).1, (run_oauth_flow env (loadStep st).1).2.1,
        (loadStep st).2 ++ (run_oauth_flow env (loadStep st).1).2.2) := by
  simp only [get_credentials, hc]

theorem get_credentials_of_expired_refreshable (env : Env) (st : SysState) (c : Credential)
    (hc : (loadStep st).1.credentials = some c) (hv : c.valid env.now = false)
    (hb : (c.expired env.now && c.hasRefreshToken) = true) :
    get_credentials env st =
      ((refresh_token env (loadStep st).1).1, (refresh_token env (loadStep st).1).2.1,
        (loadStep st).2 ++ (refresh_token env (loadStep st).1).2.2) := by
  simp only [get_credentials, hc, hv, hb, if_true, Bool.false_eq_true, if_false]

theorem get_credentials_of_flow_fallback (env : Env) (st : SysState) (c : Credential)
    (hc : (loadStep st).1.credentials = some c) (hv : c.valid env.now = false)
    (hb : (c.expired env.now && c.hasRefreshToken) = false) :
    get_credentials env st =
      ((run_oauth_flow env (loadStep st).1).1, (run_oauth_flow env (loadStep st).1).2.1,
        (loadStep st).2 ++ (run_oauth_flow env (loadStep st).1).2.2) := by
  simp only [get_credentials, hc, hv, hb, Bool.false_eq_true, if_false]

theorem run_oauth_flow_valid_or_error (env : Env) (st : SysState)
    (hf : ∀ c, env.flowOutcome = .ok c → c.valid env.now = true) :
    (∃ c, (run_oauth_flow env st).1 = .ok c ∧ c.valid env.now = true) ∨
    (∃ msg, env.flowOutcome = .err msg ∧
      (run_oauth_flow env st).1 = .httpError 500 (authFailDetail msg)) := by
  cases h : env.flowOutcome with
  | ok c => exact Or.inl ⟨c, by simp [run_oauth_flow, h], hf c h⟩
  | err m => exact Or.inr ⟨m, rfl, by simp [run_oauth_flow, h]⟩

theorem refresh_token_valid_or_error (env : Env) (st : SysState)
    (hr : ∀ c, env.refreshOutcome = .ok c → c.valid env.now = true)
    (hf : ∀ c, env.flowOutcome = .ok c → c.valid env.now = true) :
    (∃ c, (refresh_token env st).1 = .ok c ∧ c.valid env.now = true) ∨
    (∃ msg, env.flowOutcome = .err msg ∧
      (refresh_token env st).1 = .httpError 500 (authFailDetail msg)) := by
  cases h : env.refreshOutcome with
  | ok c => exact Or.inl ⟨c, by simp [refresh_token, h], hr c h⟩
  | refreshError m =>
    have heq : (refresh_token env st).1 = (run_oauth_flow env st).1 := by
      simp [refresh_token, h]
    rw [heq]
    exact run_oauth_flow_valid_or_error env st hf

/-- Claim C1: under the SDK contract that a successful refresh and a
successful interactive flow deliver a credential valid at the current
time, `get_credentials` either returns a credential valid at the moment
of return, or raises the status-500 `HTTPException` whose detail carries
the underlying flow failure; no path returns an invalid credential and
no path returns without a credential. -/
theorem C1_valid_or_auth_error (env : Env) (st : SysState)
    (hr : ∀ c, env.refreshOutcome = .ok c → c.valid env.now = true)
    (hf : ∀ c, env.flowOutcome = .ok c → c.valid env.now = true) :
    (∃ c, (get_credentials env st).1 = .ok c ∧ c.valid env.now = true) ∨
    (∃ msg, env.flowOutcome = .err msg ∧
      (get_credentials env st).1 = .httpError 500 (authFailDetail msg)) := by
  cases hc : (loadStep st).1.credentials with
  | none =>
    rw [get_credentials_of_none env st hc]
    exact run_oauth_flow_valid_or_error env _ hf
  | some c =>
    by_cases hv : c.valid env.now = true
    · rw [get_credentials_of_valid env st c hc hv]
      exact Or.inl ⟨c, rfl, hv⟩
    · have hv' : c.valid env.now = false := by
        simpa using hv
      by_cases hb : (c.expired env.now && c.hasRefreshToken) = true
      · rw [get_credentials_of_expired_refreshable env st c hc hv' hb]
        exact refresh_token_valid_or_error env _ hr hf
      · have hb' : (c.expired env.now && c.hasRefreshToken) = false := by
          simpa using hb
        rw [get_credentials_of_flow_fallback env st c hc hv' hb']
        exact run_oauth_flow_valid_or_error env _ hf

/-- Witness for C1 on an empty state with successful flow outcome. -/
theorem C1_valid_or_auth_error_witness :
    (∃ c, (get_credentials ⟨0, .ok ⟨"t2", some "rt", some 100, ["s"]⟩,
        .ok ⟨"t3", some "rt", some 100, ["s"]⟩⟩ ⟨none, .absent⟩).1 = .ok c ∧
      c.valid (0 : Int) = true) ∨
    (∃ msg, (FlowOutcome.ok ⟨"t3", some "rt", some 100, ["s"]⟩) = .err msg ∧
      (get_credentials ⟨0, .ok ⟨"t2", some "rt", some 100, ["s"]⟩,
        .ok ⟨"t3", some "rt", some 100, ["s"]⟩⟩ ⟨none, .absent⟩).1 =
        .httpError 500 (authFailDetail msg)) :=
  C1_valid_or_auth_error ⟨0, .ok ⟨"t2", some "rt", some 100, ["s"]⟩,
      .ok ⟨"t3", some "rt", some 100, ["s"]⟩⟩ ⟨none, .absent⟩
    (by intro c h; injection h with h2; subst h2; decide)
    (by intro c h; injection h with h2; subst h2; decide)

/-- Claim C2: for a loaded credential whose expiry is past, the manager
attempts the refresh call before any interactive flow when a refresh
token is present, and runs the interactive flow without any refresh call
when no refresh token is present. -/
theorem C2_expired_refresh_policy (env : Env) (st : SysState) (c : Credential)
    (hc : (loadStep st).1.credentials = some c)
    (hexp : c.expired env.now = true) :
    (c.hasRefreshToken = true →
      ∃ pre post, (get_credentials env st).2.2 = pre ++ Event.refreshCall :: post ∧
        Event.refreshCall ∉ pre ∧ Event.flowRun ∉ pre) ∧
    (c.hasRefreshToken = false →
      Event.refreshCall ∉ (get_credentials env st).2.2 ∧
      Event.flowRun ∈ (get_credentials env st).2.2) := by
  have hv : c.valid env.now = false := Credential.valid_false_of_expired c env.now hexp
  constructor
  · intro hrt
    have hb : (c.expired env.now && c.hasRefreshToken) = true := by
      simp [hexp, hrt]
    rw [get_credentials_of_expired_refreshable env st c hc hv hb]
    obtain ⟨rest, hrest⟩ := refresh_token_events env (loadStep st).1
    refine ⟨(loadStep st).2, rest, ?_, (loadStep_no_network st).1, (loadStep_no_network st).2⟩
    simp [hrest]
  · intro hrt
    have hb : (c.expired env.now && c.hasRefreshToken) = false := by
      simp [hrt]
    rw [get_credentials_of_flow_fallback env st c hc hv hb]
    constructor
    · intro hmem
      rcases List.mem_append.mp hmem with hmem | hmem
      · exact (loadStep_no_network st).1 hmem
      · exact refreshCall_not_mem_flow env _ hmem
    · exact List.mem_append_right _ (flowRun_mem_flow env _)

/-- Witness for C2 on a stored credential expired with a refresh token. -/
theorem C2_expired_refresh_policy_witness :
    ((Credential.mk "tok" (some "rt") (some (-10)) ["s"]).hasRefreshToken = true →
      ∃ pre post,
        (get_credentials ⟨0, .refreshError "e", .err "e"⟩
            ⟨none, .stored (Credential.mk "tok" (some "rt") (some (-10)) ["s"])⟩).2.2 =
          pre ++ Event.refreshCall :: post ∧
        Event.refreshCall ∉ pre ∧ Event.flowRun ∉ pre) ∧
    ((Credential.mk "tok" (some "rt") (some (-10)) ["s"]).hasRefreshToken = false →
      Event.refreshCall ∉
        (get_credentials ⟨0, .refreshError "e", .err "e"⟩
            ⟨none, .stored (Credential.mk "tok" (some "rt") (some (-10)) ["s"])⟩).2.2 ∧
      Event.flowRun ∈
        (get_credentials ⟨0, .refreshError "e", .err "e"⟩
            ⟨none, .stored (Credential.mk "tok" (some "rt") (some (-10)) ["s"])⟩).2.2) :=
  C2_expired_refresh_policy ⟨0, .refreshError "e", .err "e"⟩
    ⟨none, .stored (Credential.mk "tok" (some "rt") (some (-10)) ["s"])⟩
    (Credential.mk "tok" (some "rt") (some (-10)) ["s"]) rfl (by decide)

/-- Claim C3: on the expired-refreshable path, a `RefreshError` from the
provider is not propagated: the call returns exactly what the
interactive flow returns and the flow is run; on refresh success with a
valid updated credential, that credential is stored in memory, persisted
to the token file, and returned. -/
theorem C3_refresh_error_fallback_and_success_persists
    (env : Env) (st : SysState) (c : Credential)
    (hc : (loadStep st).1.credentials = some c)
    (hexp : c.expired env.now = true) (hrt : c.hasRefreshToken = true) :
    (∀ msg, env.refreshOutcome = .refreshError msg →
      (get_credentials env st).1 = (run_oauth_flow env (loadStep st).1).1 ∧
      Event.flowRun ∈ (get_credentials env st).2.2) ∧
    (∀ c', env.refreshOutcome = .ok c' → c'.valid env.now = true →
      (get_credentials env st).1 = .ok c' ∧
      (get_credentials env st).2.1.credentials = some c' ∧
      (get_credentials env st).2.1.tokenFile = .stored c') := by
  have hv : c.valid env.now = false := Credential.valid_false_of_expired c env.now hexp
  have hb : (c.expired env.now && c.hasRefreshToken) = true := by
    simp [hexp, hrt]
  rw [get_credentials_of_expired_refreshable env st c hc hv hb]
  constructor
  · intro msg hm
    constructor
    · simp [refresh_token, hm]
    · refine List.mem_append_right _ ?_
      simp only [refresh_token, hm]
      exact List.mem_cons_of_mem _ (flowRun_mem_flow env _)
  · intro c' hm hv'
    refine ⟨?_, ?_, ?_⟩ <;> simp [refresh_token, hm, save_credentials, hv']

/-- Witness for C3 on a stored expired-refreshable credential. -/
theorem C3_refresh_error_fallback_and_success_persists_witness :
    (∀ msg, (RefreshOutcome.ok ⟨"t2", some "rt", some 100, ["s"]⟩) = .refreshError msg →
      (get_credentials ⟨0, .ok ⟨"t2", some "rt", some 100, ["s"]⟩, .err "e"⟩
          ⟨none, .stored ⟨"tok", some "rt", some (-10), ["s"]⟩⟩).1 =
        (run_oauth_flow ⟨0, .ok ⟨"t2", some "rt", some 100, ["s"]⟩, .err "e"⟩
          (loadStep ⟨none, .stored ⟨"tok", some "rt", some (-10), ["s"]⟩⟩).1).1 ∧
      Event.flowRun ∈
        (get_credentials ⟨0, .ok ⟨"t2", some "rt", some 100, ["s"]⟩, .err "e"⟩
          ⟨none, .stored ⟨"tok", some "rt", some (-10), ["s"]⟩⟩).2.2) ∧
    (∀ c', (RefreshOutcome.ok ⟨"t2", some "rt", some 100, ["s"]⟩) = .ok c' →
      c'.valid (0 : Int) = true →
      (get_credentials ⟨0, .ok ⟨"t2", some "rt", some 100, ["s"]⟩, .err "e"⟩
          ⟨none, .stored ⟨"tok", some "rt", some (-10), ["s"]⟩⟩).1 = .ok c' ∧
      (get_credentials ⟨0, .ok ⟨"t2", some "rt", some 100, ["s"]⟩, .err "e"⟩
          ⟨none, .stored ⟨"tok", some "rt", some (-10), ["s"]⟩⟩).2.1.credentials = some c' ∧
      (get_credentials ⟨0, .ok ⟨"t2", some "rt", some 100, ["s"]⟩, .err "e"⟩
          ⟨none, .stored ⟨"tok", some "rt", some (-10), ["s"]⟩⟩).2.1.tokenFile =
        .stored c') :=
  C3_refresh_error_fallback_and_success_persists
    ⟨0, .ok ⟨"t2", some "rt", some 100, ["s"]⟩, .err "e"⟩
    ⟨none, .stored ⟨"tok", some "rt", some (-10), ["s"]⟩⟩
    ⟨"tok", some "rt", some (-10), ["s"]⟩ rfl (by decide) (by decide)

/-- Claim C7: saving a valid held credential writes exactly one store
record, and reading the store back yields a credential whose access
token, refresh token, expiry and scopes are identical to the saved
ones. -/
theorem C7_save_load_roundtrip (now : Int) (st : SysState) (c : Credential)
    (hcred : st.credentials = some c) (hv : c.valid now = true) :
    (save_credentials now st).2 = [Event.saveStore c] ∧
    ∃ c', (loadStep (save_credentials now st).1).1.credentials = some c' ∧
      c'.token = c.token ∧ c'.refresh_token = c.refresh_token ∧
      c'.expiry = c.expiry ∧ c'.scopes = c.scopes := by
  refine ⟨?_, c, ?_, rfl, rfl, rfl, rfl⟩ <;>
    simp [save_credentials, loadStep, hcred, hv]

/-- Witness for C7 at a concrete valid credential. -/
theorem C7_save_load_roundtrip_witness :
    (save_credentials 0 ⟨some ⟨"tok", some "rt", some 100, ["s"]⟩, .absent⟩).2 =
      [Event.saveStore ⟨"tok", some "rt", some 100, ["s"]⟩] ∧
    ∃ c', (loadStep
        (save_credentials 0 ⟨some ⟨"tok", some "rt", some 100, ["s"]⟩, .absent⟩).1).1.credentials =
        some c' ∧
      c'.token = (Credential.mk "tok" (some "rt") (some 100) ["s"]).token ∧
      c'.refresh_token = (Credential.mk "tok" (some "rt") (some 100) ["s"]).refresh_token ∧
      c'.expiry = (Credential.mk "tok" (some "rt") (some 100) ["s"]).expiry ∧
      c'.scopes = (Credential.mk "tok" (some "rt") (some 100) ["s"]).scopes :=
  C7_save_load_roundtrip 0 ⟨some ⟨"tok", some "rt", some 100, ["s"]⟩, .absent⟩
    ⟨"tok", some "rt", some 100, ["s"]⟩ rfl (by decide)

/-- Claim C9: when the token file holds a stored credential, the load
step of `get_credentials` overwrites whatever credential is in memory
with the stored one; when that stored credential is valid at the current
time, `get_credentials` returns it with no refresh and no flow — so the
in-memory expiry forced by the `POST /auth/refresh` route is discarded
and no refresh occurs. -/
theorem C9_store_overrides_memory (env : Env) (st : SysState) (c : Credential)
    (hfile : st.tokenFile = .stored c) (hv : c.valid env.now = true) :
    (loadStep st).1.credentials = some c ∧
    (get_credentials env st).1 = .ok c ∧
    Event.refreshCall ∉ (get_credentials env st).2.2 ∧
    Event.flowRun ∉ (get_credentials env st).2.2 ∧
    (force_refresh env st).1 = .ok c ∧
    Event.refreshCall ∉ (force_refresh env st).2.2 := by
  have hload : (loadStep st).1.credentials = some c := by
    simp [loadStep, hfile]
  have hchar := get_credentials_of_valid env st c hload hv
  have hev : (loadStep st).2 = [Event.readStore] := by
    simp [loadStep, hfile]
  refine ⟨hload, ?_, ?_, ?_, ?_, ?_⟩
  · rw [hchar]
  · rw [hchar]
    simp [hev]
  · rw [hchar]
    simp [hev]
  · unfold force_refresh
    cases hcred : st.credentials with
    | none =>
      dsimp only
      rw [hchar]
    | some c0 =>
      dsimp only
      have hload1 : (loadStep
          { st with credentials := some { c0 with expiry := some env.now } }).1.credentials =
          some c := by
        simp [loadStep, hfile]
      rw [get_credentials_of_valid env _ c hload1 hv]
  · unfold force_refresh
    cases hcred : st.credentials with
    | none =>
      dsimp only
      rw [hchar]
      simp [hev]
    | some c0 =>
      dsimp only
      have hload1 : (loadStep
          { st with credentials := some { c0 with expiry := some env.now } }).1.credentials =
          some c := by
        simp [loadStep, hfile]
      have hev1 : (loadStep
          { st with credentials := some { c0 with expiry := some env.now } }).2 =
          [Event.readStore] := by
        simp [loadStep, hfile]
      rw [get_credentials_of_valid env _ c hload1 hv]
      simp [hev1]

/-- Witness for C9: the file stores a future-expiry credential while the
in-memory copy was forced to an already-past expiry. -/
theorem C9_store_overrides_memory_witness :
    (loadStep ⟨some ⟨"tok", some "rt", some (-5), ["s"]⟩,
        .stored ⟨"tok", some "rt", some 100, ["s"]⟩⟩).1.credentials =
      some ⟨"tok", some "rt", some 100, ["s"]⟩ ∧
    (get_credentials ⟨0, .refreshError "e", .err "e"⟩
        ⟨some ⟨"tok", some "rt", some (-5), ["s"]⟩,
         .stored ⟨"tok", some "rt", some 100, ["s"]⟩⟩).1 =
      .ok ⟨"tok", some "rt", some 100, ["s"]⟩ ∧
    Event.refreshCall ∉
      (get_credentials ⟨0, .refreshError "e", .err "e"⟩
        ⟨some ⟨"tok", some "rt", some (-5), ["s"]⟩,
         .stored ⟨"tok", some "rt", some 100, ["s"]⟩⟩).2.2 ∧
    Event.flowRun ∉
      (get_credentials ⟨0, .refreshError "e", .err "e"⟩
        ⟨some ⟨"tok", some "rt", some (-5), ["s"]⟩,
         .stored ⟨"tok", some "rt", some 100, ["s"]⟩⟩).2.2 ∧
    (force_refresh ⟨0, .refreshError "e", .err "e"⟩
        ⟨some ⟨"tok", some "rt", some (-5), ["s"]⟩,
         .stored ⟨"tok", some "rt", some 100, ["s"]⟩⟩).1 =
      .ok ⟨"tok", some "rt", some 100, ["s"]⟩ ∧
    Event.refreshCall ∉
      (force_refresh ⟨0, .refreshError "e", .err "e"⟩
        ⟨some ⟨"tok", some "rt", some (-5), ["s"]⟩,
         .stored ⟨"tok", some "rt", some 100, ["s"]⟩⟩).2.2 :=
  C9_store_overrides_memory ⟨0, .refreshError "e", .err "e"⟩
    ⟨some ⟨"tok", some "rt", some (-5), ["s"]⟩,
     .stored ⟨"tok", some "rt", some 100, ["s"]⟩⟩
    ⟨"tok", some "rt", some 100, ["s"]⟩ rfl (by decide)

/-- Claim C10: with a valid held credential, `revoke_token` first makes
the refresh network call; on refresh success the held access token is
replaced by the refreshed credential and the token POSTed to the revoke
endpoint is the refreshed one, the refresh call preceding the POST in
the trace; if the refresh raises, the call returns false and the revoke
endpoint is never contacted. -/
theorem C10_revoke_refreshes_before_post (env : RevokeEnv) (st : SysState) (c : Credential)
    (hcred : st.credentials = some c) (hv : c.valid env.now = true) :
    (∀ c', env.refreshOutcome = .ok c' →
      (revoke_token env st).2.1.credentials = some c' ∧
      ∃ rest, (revoke_token env st).2.2 =
        Event.refreshCall :: Event.revokePost c'.token :: rest) ∧
    (∀ msg, env.refreshOutcome = .raised msg →
      (revoke_token env st).1 = false ∧
      (revoke_token env st).2.2 = [Event.refreshCall] ∧
      ∀ t, Event.revokePost t ∉ (revoke_token env st).2.2) := by
  constructor
  · intro c' hro
    cases hpo : env.postOutcome with
    | raised m =>
      refine ⟨?_, [], ?_⟩ <;> simp [revoke_token, hcred, hv, hro, hpo]
    | status code =>
      by_cases h200 : (code == 200) = true
      · cases htf : st.tokenFile with
        | absent =>
          refine ⟨?_, [], ?_⟩ <;> simp [revoke_token, hcred, hv, hro, hpo, h200, htf]
        | malformed =>
          refine ⟨?_, [Event.deleteStore], ?_⟩ <;>
            simp [revoke_token, hcred, hv, hro, hpo, h200, htf]
        | stored c0 =>
          refine ⟨?_, [Event.deleteStore], ?_⟩ <;>
            simp [revoke_token, hcred, hv, hro, hpo, h200, htf]
      · have h200f : (code == 200) = false := by
          simpa using h200
        refine ⟨?_, [], ?_⟩ <;> simp [revoke_token, hcred, hv, hro, hpo, h200f]
  · intro msg hro
    refine ⟨?_, ?_, ?_⟩ <;> simp [revoke_token, hcred, hv, hro]

/-- Witness for C10 with a valid held credential and a successful
refresh followed by a 200 revoke response. -/
theorem C10_revoke_refreshes_before_post_witness :
    (∀ c', (RevokeRefreshOutcome.ok ⟨"t2", some "rt", some 200, ["s"]⟩) = .ok c' →
      (revoke_token ⟨0, .ok ⟨"t2", some "rt", some 200, ["s"]⟩, .status 200⟩
          ⟨some ⟨"tok", some "rt", some 100, ["s"]⟩,
           .stored ⟨"tok", some "rt", some 100, ["s"]⟩⟩).2.1.credentials = some c' ∧
      ∃ rest, (revoke_token ⟨0, .ok ⟨"t2", some "rt", some 200, ["s"]⟩, .status 200⟩
          ⟨some ⟨"tok", some "rt", some 100, ["s"]⟩,
           .stored ⟨"tok", some "rt", some 100, ["s"]⟩⟩).2.2 =
        Event.refreshCall :: Event.revokePost c'.token :: rest) ∧
    (∀ msg, (RevokeRefreshOutcome.ok ⟨"t2", some "rt", some 200, ["s"]⟩) = .raised msg →
      (revoke_token ⟨0, .ok ⟨"t2", some "rt", some 200, ["s"]⟩, .status 200⟩
          ⟨some ⟨"tok", some "rt", some 100, ["s"]⟩,
           .stored ⟨"tok", some "rt", some 100, ["s"]⟩⟩).1 = false ∧
      (revoke_token ⟨0, .ok ⟨"t2", some "rt", some 200, ["s"]⟩, .status 200⟩
          ⟨some ⟨"tok", some "rt", some 100, ["s"]⟩,
           .stored ⟨"tok", some "rt", some 100, ["s"]⟩⟩).2.2 = [Event.refreshCall] ∧
      ∀ t, Event.revokePost t ∉
        (revoke_token ⟨0, .ok ⟨"t2", some "rt", some 200, ["s"]⟩, .status 200⟩
          ⟨some ⟨"tok", some "rt", some 100, ["s"]⟩,
           .stored ⟨"tok", some "rt", some 100, ["s"]⟩⟩).2.2) :=
  C10_revoke_refreshes_before_post ⟨0, .ok ⟨"t2", some "rt", some 200, ["s"]⟩, .status 200⟩
    ⟨some ⟨"tok", some "rt", some 100, ["s"]⟩, .stored ⟨"tok", some "rt", some 100, ["s"]⟩⟩
    ⟨"tok", some "rt", some 100, ["s"]⟩ rfl (by decide)

/-- Counterexample for C4 as stated: a successful revocation (valid held
credential, refresh succeeds, provider answers 200) returns true and
deletes the token file, yet the in-memory credential state is NOT
cleared — `self.credentials` still holds the refreshed credential. -/
theorem C4_counterexample :
    (revoke_token ⟨0, .ok ⟨"t2", some "rt", some 200, ["s"]⟩, .status 200⟩
        ⟨some ⟨"tok", some "rt", some 100, ["s"]⟩,
         .stored ⟨"tok", some "rt", some 100, ["s"]⟩⟩).1 = true ∧
    (revoke_token ⟨0, .ok ⟨"t2", some "rt", some 200, ["s"]⟩, .status 200⟩
        ⟨some ⟨"tok", some "rt", some 100, ["s"]⟩,
         .stored ⟨"tok", some "rt", some 100, ["s"]⟩⟩).2.1.tokenFile = .absent ∧
    (revoke_token ⟨0, .ok ⟨"t2", some "rt", some 200, ["s"]⟩, .status 200⟩
        ⟨some ⟨"tok", some "rt", some 100, ["s"]⟩,
         .stored ⟨"tok", some "rt", some 100, ["s"]⟩⟩).2.1.credentials ≠ none := by
  decide

/-- Claim C4 (amended): `revoke_token` returns true exactly when a valid
credential is held, the pre-revoke refresh succeeds, and the provider
answers status 200; on success the persisted record is deleted but the
in-memory credential state is retained, not cleared; every other case
returns false.  The operation is total in the embedding — every
exception inside the body is caught, so no path raises. -/
theorem C4_revoke_success_and_failure (env : RevokeEnv) (st : SysState) :
    ((revoke_token env st).1 = true ↔
      (∃ c, st.credentials = some c ∧ c.valid env.now = true) ∧
      (∃ c', env.refreshOutcome = .ok c') ∧
      env.postOutcome = .status 200) ∧
    ((revoke_token env st).1 = true →
      (revoke_token env st).2.1.tokenFile = .absent ∧
      (revoke_token env st).2.1.credentials ≠ none) := by
  cases hcred : st.credentials with
  | none => simp [revoke_token, hcred]
  | some c =>
    by_cases hv : c.valid env.now = true
    · cases hro : env.refreshOutcome with
      | raised m => simp [revoke_token, hcred, hv, hro]
      | ok c' =>
        cases hpo : env.postOutcome with
        | raised m => simp [revoke_token, hcred, hv, hro, hpo]
        | status code =>
          by_cases h200 : (code == 200) = true
          · have hcode : code = 200 := by simpa using h200
            subst hcode
            cases htf : st.tokenFile <;>
              simp [revoke_token, hcred, hv, hro, hpo, h200, htf]
          · have h200f : (code == 200) = false := by simpa using h200
            have hne : code ≠ 200 := by simpa using h200
            simp [revoke_token, hcred, hv, hro, hpo, h200f, hne]
    · have hvf : c.valid env.now = false := by simpa using hv
      simp [revoke_token, hcred, hvf]

/-- Witness for the amended C4 at a successful concrete revocation. -/
theorem C4_revoke_success_and_failure_witness :
    ((revoke_token ⟨0, .ok ⟨"t2", some "rt", some 200, ["s"]⟩, .status 200⟩
        ⟨some ⟨"tok", some "rt", some 100, ["s"]⟩, .absent⟩).1 = true ↔
      (∃ c, (some (Credential.mk "tok" (some "rt") (some 100) ["s"]) = some c) ∧
        c.valid (0 : Int) = true) ∧
      (∃ c', (RevokeRefreshOutcome.ok ⟨"t2", some "rt", some 200, ["s"]⟩) = .ok c') ∧
      (PostOutcome.status 200 = .status 200)) ∧
    ((revoke_token ⟨0, .ok ⟨"t2", some "rt", some 200, ["s"]⟩, .status 200⟩
        ⟨some ⟨"tok", some "rt", some 100, ["s"]⟩, .absent⟩).1 = true →
      (revoke_token ⟨0, .ok ⟨"t2", some "rt", some 200, ["s"]⟩, .status 200⟩
        ⟨some ⟨"tok", some "rt", some 100, ["s"]⟩, .absent⟩).2.1.tokenFile = .absent ∧
      (revoke_token ⟨0, .ok ⟨"t2", some "rt", some 200, ["s"]⟩, .status 200⟩
        ⟨some ⟨"tok", some "rt", some 100, ["s"]⟩, .absent⟩).2.1.credentials ≠ none) :=
  C4_revoke_success_and_failure ⟨0, .ok ⟨"t2", some "rt", some 200, ["s"]⟩, .status 200⟩
    ⟨some ⟨"tok", some "rt", some 100, ["s"]⟩, .absent⟩
